import Mathlib

/-!
Shallow embedding of the kubectl-status rendering pipeline
(pkg/plugin/plugin.go together with its embedded Deployment template),
with theorems settling the specification's claims about it.

Conventions:
- Go maps over strings are modelled as association lists
  (`List (String × String)`); a Go map read `b[k]` on a missing key yields
  the zero value `""`, modelled by `mapGet`.
- Cluster access (the resource builder, client-go) is external to the file
  under verification; it is passed in as an explicit function argument, and
  where a claim is about the number of cluster reads, functions return the
  count of reads they performed alongside their result.
- A Go panic (index out of range) is modelled as `Option.none`.
-/

set_option autoImplicit false

namespace KubectlStatus

/-- Go map read `b[k]`: a missing key yields the zero value, the empty string. -/
def mapGet (m : List (String × String)) (k : String) : String :=
  match m.lookup k with
  | some v => v
  | none => ""

/-- Embedding of `isSubset` (plugin.go, lines 203-211): iterates the pairs of
`a` and returns false as soon as one value differs from the Go map read
`b[k]` (which is `""` when `k` is absent from `b`). -/
def isSubset (a b : List (String × String)) : Bool :=
  a.all (fun kv => mapGet b kv.1 == kv.2)

/-- A cluster Service, restricted to the fields read by
`GetKubeGetServicesMatchingPod`: `spec.type` and `spec.selector`. -/
structure Service where
  name : String
  type : String
  selector : List (String × String)

/-- Embedding of the loop body of `GetKubeGetServicesMatchingPod`
(plugin.go, lines 180-201): iterate all listed Services, `continue` past
Services of type "ExternalName", and keep a Service when its selector is an
`isSubset` of the Pod's labels. -/
def GetKubeGetServicesMatchingPod (svcs : List Service)
    (podLabels : List (String × String)) : List Service :=
  match svcs with
  | [] => []
  | svc :: rest =>
    if svc.type = "ExternalName" then
      GetKubeGetServicesMatchingPod rest podLabels
    else if isSubset svc.selector podLabels then
      svc :: GetKubeGetServicesMatchingPod rest podLabels
    else
      GetKubeGetServicesMatchingPod rest podLabels

/-- Embedding of `findTemplateName` (plugin.go, lines 356-365): the parsed
template set is represented by the list of its defined template names, and
`tmpl.Lookup kind` succeeding is membership of `kind` in that list. -/
def findTemplateName (templates : List String) (kind : String) : String :=
  if templates.contains kind then kind else "DefaultResource"

/-- Embedding of the `kindInjectFuncMap` literal inside `RenderResource`
(plugin.go, lines 299-304), keyed by kind, listing the registered augmentor
function names in registration order. -/
def kindInjectFuncMap (kind : String) : List String :=
  if kind = "Node" then ["includePodDetailsOnNode", "includeNodeStatsSummary"]
  else if kind = "Pod" then ["includePodMetrics"]
  else if kind = "StatefulSet" then ["includeStatefulSetDiff"]
  else if kind = "Ingress" then ["includeIngressServices"]
  else []

/-- Embedding of the augmentor loop of `RenderResource` (plugin.go, lines
305-312): run each registered function in order against the same tree;
return immediately on the first error. The augmentor bodies live outside
this file, so they are passed in as the semantics `sem`, mapping an
augmentor name to its action on the tree (`α`). The first component of the
result records, in order, exactly the augmentors that were invoked. -/
def runAugmentors {α ε : Type} (sem : String → α → Except ε α) :
    List String → α → List String × Except ε α
  | [], t => ([], Except.ok t)
  | n :: rest, t =>
    match sem n t with
    | Except.error e => ([n], Except.error e)
    | Except.ok t1 =>
      let r := runAugmentors sem rest t1
      (n :: r.1, r.2)

/-- Embedding of `PrintRenderedResource` (plugin.go, lines 282-288): render
the object, write the output framed by a leading and trailing newline, and
pass the render error (if any) back to the caller. `render` stands for
`RenderResource`; the first component is the text written to stdout. -/
def PrintRenderedResource {α ε : Type} (render : α → String × Option ε)
    (resourceInfo : α) : String × Option ε :=
  let r := render resourceInfo
  ("\n" ++ r.1 ++ "\n", r.2)

/-- Embedding of `PrintRenderedResourceInfos` (plugin.go, lines 105-114):
process every resource info in order, printing each rendered report and
appending each per-object error to the aggregate list; the loop never stops
early. Result: (texts written in order, aggregated errors in order). -/
def PrintRenderedResourceInfos {α ε : Type} (render : α → String × Option ε) :
    List α → List String × List ε
  | [] => ([], [])
  | resourceInfo :: rest =>
    let pr := PrintRenderedResource render resourceInfo
    let r := PrintRenderedResourceInfos render rest
    (pr.1 :: r.1,
      match pr.2 with
      | some e => e :: r.2
      | none => r.2)

/-- Embedding of the `ResourceStatusQuery` record (plugin.go, lines 56-65).
The Go field `namespace` is called `ns` here because `namespace` is a Lean
keyword; the `clientGetter` cluster handle is external and is modelled by
explicit query functions passed to the operations that need it. -/
structure ResourceStatusQuery where
  ns : String
  allNamespaces : Bool
  enforceNamespace : Bool
  filenames : List String
  selector : String
  fieldSelector : String
  args : List String

/-- Embedding of `getQueriedResources` (plugin.go, lines 79-103). The
builder/cluster interaction is abstracted to its outcome `resolved` (either
a hard resolution error or the recovered resource infos of type `α`).
Result: (informational messages printed, returned value). On zero resolved
objects a "No resources found" notice is printed and no error is returned. -/
def getQueriedResources {α : Type} (q : ResourceStatusQuery)
    (resolved : Except String (List α)) :
    List String × Except String (List α) :=
  match resolved with
  | Except.error e =>
    ([], Except.error ("Failed getting resource infos: " ++ e))
  | Except.ok resourceInfos =>
    if resourceInfos.length = 0 then
      if ¬q.allNamespaces ∧ q.ns ≠ "" then
        (["No resources found in " ++ q.ns ++ " namespace"],
          Except.ok resourceInfos)
      else
        (["No resources found."], Except.ok resourceInfos)
    else
      ([], Except.ok resourceInfos)

/-- An owner reference as read by `GetIncludeOwnersFunc`: only `Kind` and
`Name` are used. -/
structure OwnerReference where
  kind : String
  name : String

/-- The part of an unstructured object read by `GetIncludeOwnersFunc`:
`metadata.namespace` (here `ns`, since `namespace` is a Lean keyword) and
`metadata.ownerReferences`. -/
structure UnstructuredObject where
  ns : String
  ownerReferences : List OwnerReference

/-- Embedding of the function returned by `GetIncludeOwnersFunc`
(plugin.go, lines 248-257): it reads `owners[0]` unconditionally, so an
empty owner-reference list is an index-out-of-range panic, modelled as
`none`; otherwise it calls the include-object function (which renders the
owner inline) with the object's namespace and the first owner's kind and
name. -/
def GetIncludeOwnersFunc (includeObjFunc : String → String → String → String)
    (obj : UnstructuredObject) : Option String :=
  match obj.ownerReferences with
  | [] => none
  | owner :: _ => some (includeObjFunc obj.ns owner.kind owner.name)

/-- Embedding of the function returned by `GetKubeGetByLabelsMapFunc`
(plugin.go, lines 153-178): it formats the label mapping into a selector
string of comma-joined key=value pairs and queries with the *query scope's*
namespace `q.ns`; its own `namespace` and `kind` parameters are never used.
`clusterQuery` stands for the resource builder: (namespace, label selector)
to resolved objects. -/
def GetKubeGetByLabelsMapFunc {α : Type} (q : ResourceStatusQuery)
    (clusterQuery : String → String → List α) :
    String → String → List (String × String) → List α :=
  fun _namespace _kind labels =>
    let labelPairs := labels.map (fun kv => kv.1 ++ "=" ++ kv.2)
    let selector := String.intercalate "," labelPairs
    clusterQuery q.ns selector

/-- The three replica banners the Deployment template can emit. -/
inductive DeploymentBanner where
  | outage : DeploymentBanner
  | notReady : Int → DeploymentBanner
  | unavailable : Nat → DeploymentBanner
  deriving DecidableEq

/-- Embedding of the replica-banner chain of the Deployment template
(templates, lines 441-451), after the default-injection of lines 427-430
(so a missing `replicas`/`readyReplicas` reads as 0; `unavailableReplicas`
is not defaulted and a missing or nil value is falsy, modelled as 0):

- `if not .Status.readyReplicas` emits the Outage banner;
- `else if ne .Status.replicas .Status.readyReplicas`, guarded by
  `$rolloutStatus.done`, emits Not Ready Replicas with
  `sub .Status.replicas .Status.readyReplicas` (an int subtraction, which
  can be negative);
- `else if .Status.unavailableReplicas`, guarded by `$rolloutStatus.done`,
  emits Unavailable Replicas.

The else-if chain emits at most one banner, hence the `Option`. -/
def deploymentReplicaBanner (replicas readyReplicas unavailableReplicas : Nat)
    (rolloutDone : Bool) : Option DeploymentBanner :=
  if readyReplicas = 0 then
    some DeploymentBanner.outage
  else if replicas ≠ readyReplicas then
    if rolloutDone then
      some (DeploymentBanner.notReady ((replicas : Int) - (readyReplicas : Int)))
    else none
  else if unavailableReplicas ≠ 0 then
    if rolloutDone then some (DeploymentBanner.unavailable unavailableReplicas)
    else none
  else
    none

/-- The text of each banner line, with the color and indentation filters of
the template stripped. -/
def bannerLine : DeploymentBanner → String
  | DeploymentBanner.outage => "Outage: Deployment has no Ready replicas."
  | DeploymentBanner.notReady n =>
    "Not Ready Replicas: " ++ toString n ++ " replicas are not Ready."
  | DeploymentBanner.unavailable n =>
    "Unavailable Replicas: " ++ toString n ++ " replicas are not Available."

/-- Modelled from the spec: the bound live-cluster data functions of the
rule engine's function map (bound in `renderTemplateForMap`, plugin.go,
lines 335-346; the default bindings live in `getFuncMap`, which is not in
src). Each function returns its result together with the number of cluster
reads it performed. -/
structure ClusterFuncs where
  kubeGet : String → List String → List String × Nat
  kubeGetFirst : String → List String → String × Nat
  includeObj : String → List String → String × Nat

/-- Modelled from the spec: the default function-map bindings used when no
`ResourceStatusQuery` is passed to `renderTemplateForMap` (the local-file
path of `RenderFile`): per the spec, "all live-cluster data functions
reduced to no-ops (calls that would require cluster access return empty
results rather than failing)", so every function returns an empty result
and performs zero cluster reads. -/
def defaultClusterFuncs : ClusterFuncs where
  kubeGet := fun _ _ => ([], 0)
  kubeGetFirst := fun _ _ => ("", 0)
  includeObj := fun _ _ => ("", 0)

/-- Modelled from the spec: an abstract rule body for the rule engine (the
text/template execution is an external library). A rule is literal text,
sequencing, or a call to one of the bound live-cluster data functions. -/
inductive RuleExpr where
  | lit : String → RuleExpr
  | seq : RuleExpr → RuleExpr → RuleExpr
  | callKubeGet : String → List String → RuleExpr
  | callKubeGetFirst : String → List String → RuleExpr
  | callIncludeObj : String → List String → RuleExpr

/-- Modelled from the spec: execution of a rule body under a set of bound
functions. Result: (rendered text, total cluster reads attempted). -/
def execRule (fs : ClusterFuncs) : RuleExpr → String × Nat
  | RuleExpr.lit s => (s, 0)
  | RuleExpr.seq a b =>
    let ra := execRule fs a
    let rb := execRule fs b
    (ra.1 ++ rb.1, ra.2 + rb.2)
  | RuleExpr.callKubeGet ns args =>
    let r := fs.kubeGet ns args
    (String.join r.1, r.2)
  | RuleExpr.callKubeGetFirst ns args =>
    let r := fs.kubeGetFirst ns args
    (r.1, r.2)
  | RuleExpr.callIncludeObj ns args =>
    let r := fs.includeObj ns args
    (r.1, r.2)

/-- True when the rule body calls at least one live-cluster data function. -/
def hasClusterCall : RuleExpr → Bool
  | RuleExpr.lit _ => false
  | RuleExpr.seq a b => hasClusterCall a || hasClusterCall b
  | RuleExpr.callKubeGet _ _ => true
  | RuleExpr.callKubeGetFirst _ _ => true
  | RuleExpr.callIncludeObj _ _ => true

/-- Embedding of `RenderFile` (plugin.go, lines 320-333) composed with the
no-query path of `renderTemplateForMap` (lines 335-354). File reading and
YAML unmarshalling are abstracted to their outcome `parsed` (the manifest's
kind on success); on a parse failure the error is returned with the
source's message. On success the rule selected by `findTemplateName` for
the manifest's kind is executed under `defaultClusterFuncs`, since no
`ResourceStatusQuery` is passed. `ruleFor` is the compiled rule set
(total: the reserved "DefaultResource" rule always exists). -/
def RenderFile (ruleNames : List String) (ruleFor : String → RuleExpr)
    (parsed : Except String String) : Except String (String × Nat) :=
  match parsed with
  | Except.error e =>
    Except.error ("Failed getting JSON for object: " ++ e)
  | Except.ok kind =>
    Except.ok (execRule defaultClusterFuncs (ruleFor (findTemplateName ruleNames kind)))

/-- Claim C4, counterexample. The claim states `isSubset a b` is true iff every
key present in `a` also exists as a key of `b` with an equal value. The Go map
read `b[k]` yields `""` for a missing key, so for `a` mapping a key to the
empty string and `b` empty, `isSubset` returns true although the key does not
exist in `b` at all. -/
theorem isSubset_counterexample :
    isSubset [("app", "")] [] = true
  ∧ List.lookup "app" ([] : List (String × String)) = none := by
  constructor
  · rfl
  · rfl

/-- Claim C4, amended: `isSubset a b` is true iff every pair `(k, v)` of `a`
satisfies `v = b[k]` under Go map-read semantics, where a key missing from `b`
reads as the empty string; `isSubset` of the empty mapping is true for every
`b`. -/
theorem isSubset_amended (a b : List (String × String)) :
    (isSubset a b = true ↔ ∀ kv ∈ a, mapGet b kv.1 = kv.2)
  ∧ isSubset [] b = true := by
  constructor
  · simp [isSubset, List.all_eq_true]
  · rfl

/-- Claim C5: rule selection is total and deterministic: `findTemplateName`
returns the kind's exact name when a template with that name exists, and the
reserved default name "DefaultResource" otherwise. -/
theorem findTemplateName_spec (templates : List String) (kind : String) :
    (templates.contains kind = true → findTemplateName templates kind = kind)
  ∧ (templates.contains kind = false →
      findTemplateName templates kind = "DefaultResource") := by
  constructor <;> intro h <;> unfold findTemplateName <;> rw [h] <;> simp

/-- Witness for claim C5 at a concrete rule set. -/
theorem findTemplateName_spec_witness :
    findTemplateName ["Deployment"] "Deployment" = "Deployment"
  ∧ findTemplateName ["Deployment"] "Pod" = "DefaultResource" :=
  ⟨(findTemplateName_spec ["Deployment"] "Deployment").1 (by decide),
   (findTemplateName_spec ["Deployment"] "Pod").2 (by decide)⟩

/-- Claim C10: the function returned by `GetKubeGetByLabelsMapFunc` is
independent of its namespace and kind parameters: for a fixed query scope and
label mapping, any two calls differing only in those arguments agree, because
the query is always built from the scope's namespace and the kind argument is
never used. -/
theorem kube_get_by_labels_ignores_args (α : Type) (q : ResourceStatusQuery)
    (clusterQuery : String → String → List α)
    (ns1 kind1 ns2 kind2 : String) (labels : List (String × String)) :
    GetKubeGetByLabelsMapFunc q clusterQuery ns1 kind1 labels
      = GetKubeGetByLabelsMapFunc q clusterQuery ns2 kind2 labels := rfl

/-- Claim C8: when resolution succeeds with zero objects, the namespace is
unset and allNamespaces is false, `getQueriedResources` prints exactly the
informational "No resources found." message and returns the empty list with no
error. -/
theorem no_resources_found_message (α : Type) (q : ResourceStatusQuery)
    (hns : q.ns = "") (hall : q.allNamespaces = false) :
    getQueriedResources q (Except.ok ([] : List α))
      = (["No resources found."], Except.ok []) := by
  simp [getQueriedResources, hns, hall]

/-- Witness for claim C8 at a concrete query scope. -/
theorem no_resources_found_message_witness :
    getQueriedResources ⟨"", false, false, [], "", "", []⟩
        (Except.ok ([] : List Nat))
      = (["No resources found."], Except.ok []) :=
  no_resources_found_message Nat ⟨"", false, false, [], "", "", []⟩ rfl rfl

/-- Claim C9: the include-owners function is not total: on a tree whose
owner-reference list is empty it indexes the first element unconditionally and
panics (modelled by `none`) rather than returning empty text or an error;
on a non-empty list it renders the first owner inline. -/
theorem include_owners_panics_on_empty :
    (∀ (includeObjFunc : String → String → String → String)
       (obj : UnstructuredObject),
       obj.ownerReferences = [] → GetIncludeOwnersFunc includeObjFunc obj = none)
  ∧ (∀ (includeObjFunc : String → String → String → String)
       (obj : UnstructuredObject) (owner : OwnerReference)
       (rest : List OwnerReference),
       obj.ownerReferences = owner :: rest →
       GetIncludeOwnersFunc includeObjFunc obj
         = some (includeObjFunc obj.ns owner.kind owner.name)) := by
  constructor
  · intro f obj h
    simp [GetIncludeOwnersFunc, h]
  · intro f obj owner rest h
    simp [GetIncludeOwnersFunc, h]

/-- Witness for claim C9 at concrete objects with empty and non-empty owner
lists. -/
theorem include_owners_panics_on_empty_witness :
    GetIncludeOwnersFunc (fun a b c => a ++ b ++ c) ⟨"ns1", []⟩ = none
  ∧ GetIncludeOwnersFunc (fun a b c => a ++ b ++ c)
      ⟨"ns1", [⟨"ReplicaSet", "rs1"⟩]⟩
      = some ("ns1" ++ "ReplicaSet" ++ "rs1") :=
  ⟨include_owners_panics_on_empty.1 _ _ rfl,
   include_owners_panics_on_empty.2 _ _ ⟨"ReplicaSet", "rs1"⟩ [] rfl⟩

/-- Claim C1, counterexample. The claim states the "Not Ready Replicas" banner
appears iff readyReplicas is non-zero, rollout is done, and readyReplicas is
less than the desired count, and the "Unavailable Replicas" banner appears iff
neither prior condition holds, rollout is done, and unavailableReplicas > 0.
At status.replicas = 2, readyReplicas = 3, unavailableReplicas = 1, done =
true, readyReplicas is NOT less than the count (3 < 2 fails) and
unavailableReplicas > 0 holds, so the claim demands the Unavailable banner;
the template instead compares with `ne` and emits "Not Ready Replicas: -1". -/
theorem deployment_banner_counterexample :
    deploymentReplicaBanner 2 3 1 true = some (DeploymentBanner.notReady (-1))
  ∧ deploymentReplicaBanner 2 3 1 true ≠ some (DeploymentBanner.unavailable 1)
  ∧ ¬(3 < 2) ∧ 0 < 1 := by decide

/-- Claim C1, amended: at most one banner is emitted per render (the result is
an `Option`), and: "Outage" iff readyReplicas = 0; "Not Ready Replicas: N"
with N = status.replicas - status.readyReplicas (an integer, possibly
negative) iff readyReplicas is non-zero, rollout is done, and readyReplicas
DIFFERS from status.replicas; "Unavailable Replicas: N" iff readyReplicas is
non-zero and equal to status.replicas, rollout is done, and
unavailableReplicas is non-zero. For replicas = 3, readyReplicas = 2, done =
true, exactly the line "Not Ready Replicas: 1 replicas are not Ready." is
produced. -/
theorem deployment_banner_amended (replicas readyReplicas unavailableReplicas : Nat)
    (rolloutDone : Bool) :
    (deploymentReplicaBanner replicas readyReplicas unavailableReplicas rolloutDone
        = some DeploymentBanner.outage ↔ readyReplicas = 0)
  ∧ (∀ n : Int,
      deploymentReplicaBanner replicas readyReplicas unavailableReplicas rolloutDone
          = some (DeploymentBanner.notReady n)
        ↔ readyReplicas ≠ 0 ∧ rolloutDone = true ∧ replicas ≠ readyReplicas
            ∧ (replicas : Int) - (readyReplicas : Int) = n)
  ∧ (∀ n : Nat,
      deploymentReplicaBanner replicas readyReplicas unavailableReplicas rolloutDone
          = some (DeploymentBanner.unavailable n)
        ↔ readyReplicas ≠ 0 ∧ replicas = readyReplicas ∧ rolloutDone = true
            ∧ unavailableReplicas ≠ 0 ∧ unavailableReplicas = n)
  ∧ (deploymentReplicaBanner 3 2 0 true).map bannerLine
      = some "Not Ready Replicas: 1 replicas are not Ready." := by
  refine ⟨?_, ?_, ?_, by decide⟩ <;>
    (by_cases h0 : readyReplicas = 0 <;>
      by_cases hne : replicas = readyReplicas <;>
      cases rolloutDone <;>
      by_cases hu : unavailableReplicas = 0 <;>
      simp_all [deploymentReplicaBanner])

/-- Claim C2: the augmentor list registered for a kind is run in registration
order against the same tree, and the first augmentor returning an error stops
the run immediately: exactly the successful prefix and the failing augmentor
are invoked, that error is the single error produced, and no later augmentor
runs. In particular, for a Node whose pod-listing augmentor
(includePodDetailsOnNode) fails, the node-stats augmentor
(includeNodeStatsSummary) is never invoked. -/
theorem augmentors_first_error_stops :
    (∀ (α ε : Type) (sem : String → α → Except ε α) (pre post : List String)
       (t t' : α) (name : String) (e : ε),
       runAugmentors sem pre t = (pre, Except.ok t') →
       sem name t' = Except.error e →
       runAugmentors sem (pre ++ name :: post) t = (pre ++ [name], Except.error e))
  ∧ (∀ (α ε : Type) (sem : String → α → Except ε α) (t : α) (e : ε),
       sem "includePodDetailsOnNode" t = Except.error e →
       runAugmentors sem (kindInjectFuncMap "Node") t
         = (["includePodDetailsOnNode"], Except.error e)) := by
  have main : ∀ (α ε : Type) (sem : String → α → Except ε α) (pre post : List String)
      (t t' : α) (name : String) (e : ε),
      runAugmentors sem pre t = (pre, Except.ok t') →
      sem name t' = Except.error e →
      runAugmentors sem (pre ++ name :: post) t = (pre ++ [name], Except.error e) := by
    intro α ε sem pre
    induction pre with
    | nil =>
      intro post t t' name e hpre hfail
      simp only [runAugmentors] at hpre
      have ht : t = t' := by
        have h2 := congrArg Prod.snd hpre
        simpa using h2
      subst ht
      simp [runAugmentors, hfail]
    | cons n pre ih =>
      intro post t t' name e hpre hfail
      cases hsem : sem n t with
      | error e0 =>
        simp [runAugmentors, hsem] at hpre
      | ok t1 =>
        rcases hr : runAugmentors sem pre t1 with ⟨l, res⟩
        simp [runAugmentors, hsem, hr] at hpre
        obtain ⟨h1, h2⟩ := hpre
        subst h1
        subst h2
        have hrec := ih post t1 t' name e hr hfail
        simp [runAugmentors, hsem, hrec]
  refine ⟨main, ?_⟩
  intro α ε sem t e hfail
  have hnil : runAugmentors sem [] t = ([], Except.ok t) := rfl
  have h := main α ε sem [] ["includeNodeStatsSummary"] t t
    "includePodDetailsOnNode" e hnil hfail
  have hk : kindInjectFuncMap "Node"
      = ["includePodDetailsOnNode", "includeNodeStatsSummary"] := rfl
  rw [hk]
  simpa using h

/-- Witness for claim C2: a Node object whose pod-listing augmentor fails;
the node-stats augmentor is never invoked and the single error is returned. -/
theorem augmentors_first_error_stops_witness :
    runAugmentors
      (fun n t => if n = "includePodDetailsOnNode"
        then Except.error "pods failed" else Except.ok t)
      (kindInjectFuncMap "Node") (0 : Nat)
      = (["includePodDetailsOnNode"], Except.error "pods failed") :=
  augmentors_first_error_stops.2 Nat String
    (fun n t => if n = "includePodDetailsOnNode"
      then Except.error "pods failed" else Except.ok t)
    0 "pods failed" rfl

/-- Claim C3: rendering processes every object in order even when earlier
objects fail: the aggregate error list is exactly the errors of the failing
objects in order, every object's report is written (framed by blank lines),
the aggregate is empty iff no object failed, and an empty aggregate is
possible on a non-empty input list. -/
theorem print_rendered_infos_collects_errors (α ε : Type)
    (render : α → String × Option ε) (objs : List α) :
    (PrintRenderedResourceInfos render objs).2
        = objs.filterMap (fun o => (render o).2)
  ∧ (PrintRenderedResourceInfos render objs).1
        = objs.map (fun o => "\n" ++ (render o).1 ++ "\n")
  ∧ ((PrintRenderedResourceInfos render objs).2 = []
        ↔ ∀ o ∈ objs, (render o).2 = none)
  ∧ (PrintRenderedResourceInfos
        (fun n : Nat => (toString n, (none : Option String))) [1, 2]).2 = [] := by
  have herr : ∀ l : List α,
      (PrintRenderedResourceInfos render l).2
        = l.filterMap (fun o => (render o).2) := by
    intro l
    induction l with
    | nil => rfl
    | cons o rest ih =>
      cases h : (render o).2 with
      | none =>
        simp [PrintRenderedResourceInfos, PrintRenderedResource, h, ih,
          List.filterMap_cons]
      | some e =>
        simp [PrintRenderedResourceInfos, PrintRenderedResource, h, ih,
          List.filterMap_cons]
  have hout : ∀ l : List α,
      (PrintRenderedResourceInfos render l).1
        = l.map (fun o => "\n" ++ (render o).1 ++ "\n") := by
    intro l
    induction l with
    | nil => rfl
    | cons o rest ih =>
      cases h : (render o).2 with
      | none => simp [PrintRenderedResourceInfos, PrintRenderedResource, h, ih]
      | some e => simp [PrintRenderedResourceInfos, PrintRenderedResource, h, ih]
  refine ⟨herr objs, hout objs, ?_, by rfl⟩
  rw [herr objs]
  exact List.filterMap_eq_nil_iff

/-- Helper: the service-matching loop is a filter. -/
theorem services_matching_filter (svcs : List Service)
    (podLabels : List (String × String)) :
    GetKubeGetServicesMatchingPod svcs podLabels
      = svcs.filter
          (fun s => !(s.type == "ExternalName") && isSubset s.selector podLabels) := by
  induction svcs with
  | nil => rfl
  | cons svc rest ih =>
    by_cases h1 : svc.type = "ExternalName"
    · simp [GetKubeGetServicesMatchingPod, h1, ih, List.filter_cons]
    · by_cases h2 : isSubset svc.selector podLabels = true
      · simp [GetKubeGetServicesMatchingPod, h1, h2, ih, List.filter_cons]
      · simp [GetKubeGetServicesMatchingPod, h1, h2, ih, List.filter_cons]

/-- Claim C6: `GetKubeGetServicesMatchingPod` returns exactly the listed
Services whose selector is an `isSubset` of the pod's labels and whose type is
not "ExternalName"; no Service of type "ExternalName" is ever returned, even
when its selector matches. -/
theorem services_matching_pod_spec (svcs : List Service)
    (podLabels : List (String × String)) :
    (∀ s : Service, s ∈ GetKubeGetServicesMatchingPod svcs podLabels
        ↔ (s ∈ svcs ∧ s.type ≠ "ExternalName"
            ∧ isSubset s.selector podLabels = true))
  ∧ (GetKubeGetServicesMatchingPod svcs podLabels).all
      (fun s => !(s.type == "ExternalName")) = true := by
  constructor
  · intro s
    rw [services_matching_filter]
    simp [List.mem_filter, and_assoc]
  · rw [services_matching_filter, List.all_eq_true]
    intro s hs
    rw [List.mem_filter] at hs
    exact (Bool.and_eq_true_iff.mp hs.2).1

/-- Claim C7: `RenderFile` renders a parsed manifest through the same rule
engine (rule selected by `findTemplateName`) with the default function
bindings, under which every live-cluster data function is a no-op: a parse
failure is returned as an error with the source's message; execution under the
default bindings always succeeds with zero cluster reads attempted; a rule
with no cluster-dependent calls renders identically under any bindings; and
each cluster-requiring call returns an empty result rather than failing. -/
theorem render_file_local_noop (ruleNames : List String)
    (ruleFor : String → RuleExpr) :
    (∀ e, RenderFile ruleNames ruleFor (Except.error e)
        = Except.error ("Failed getting JSON for object: " ++ e))
  ∧ (∀ kind, RenderFile ruleNames ruleFor (Except.ok kind)
        = Except.ok (execRule defaultClusterFuncs
            (ruleFor (findTemplateName ruleNames kind))))
  ∧ (∀ rule : RuleExpr, (execRule defaultClusterFuncs rule).2 = 0)
  ∧ (∀ (fs : ClusterFuncs) (rule : RuleExpr), hasClusterCall rule = false →
        execRule fs rule = execRule defaultClusterFuncs rule)
  ∧ (∀ (ns : String) (args : List String),
        execRule defaultClusterFuncs (RuleExpr.callKubeGet ns args) = ("", 0)
      ∧ execRule defaultClusterFuncs (RuleExpr.callKubeGetFirst ns args) = ("", 0)
      ∧ execRule defaultClusterFuncs (RuleExpr.callIncludeObj ns args) = ("", 0)) := by
  refine ⟨fun e => rfl, fun kind => rfl, ?_, ?_, fun ns args => ⟨rfl, rfl, rfl⟩⟩
  · intro rule
    induction rule with
    | lit s => rfl
    | seq a b iha ihb => simp [execRule, iha, ihb]
    | callKubeGet ns args => rfl
    | callKubeGetFirst ns args => rfl
    | callIncludeObj ns args => rfl
  · intro fs rule h
    induction rule with
    | lit s => rfl
    | seq a b iha ihb =>
      simp only [hasClusterCall, Bool.or_eq_false_iff] at h
      simp [execRule, iha h.1, ihb h.2]
    | callKubeGet ns args => simp [hasClusterCall] at h
    | callKubeGetFirst ns args => simp [hasClusterCall] at h
    | callIncludeObj ns args => simp [hasClusterCall] at h

/-- Witness for claim C7: a literal rule has no cluster calls and renders the
same under arbitrary live bindings as under the defaults. -/
theorem render_file_local_noop_witness :
    hasClusterCall (RuleExpr.lit "ok") = false
  ∧ execRule ⟨fun _ _ => (["x"], 5), fun _ _ => ("y", 7), fun _ _ => ("z", 9)⟩
      (RuleExpr.lit "ok")
      = execRule defaultClusterFuncs (RuleExpr.lit "ok") :=
  ⟨rfl,
   (render_file_local_noop [] (fun _ => RuleExpr.lit "ok")).2.2.2.1
     ⟨fun _ _ => (["x"], 5), fun _ _ => ("y", 7), fun _ _ => ("z", 9)⟩
     (RuleExpr.lit "ok") rfl⟩

end KubectlStatus
